import Mathlib

/-!
Verification of the command-composition and device-address-probe core of
the scrcpy/droidcam launcher. The composer embeds the method
`get_scrcpy_command` (reading widget state abstracted into a `MirrorConfig`
record); the prober embeds `PhoneIPDetector.run`, with the external
`subprocess.run` boundary abstracted into an environment mapping the index
of each external call to its observable result.
-/

set_option maxRecDepth 4000

namespace Scrcpty

/-- Whitespace predicate modelling the ASCII whitespace characters that
Python `str.strip`, `str.split` and the regex class `\s` treat as spaces
(space, tab, newline, carriage return, vertical tab, form feed). -/
def pyIsSpace (c : Char) : Bool :=
  c = ' ' || c = '\t' || c = '\n' || c = '\r' || c = '\x0b' || c = '\x0c'

/-- Python `str.strip()` on the character list: drop whitespace from both ends. -/
def pyStripList (cs : List Char) : List Char :=
  ((cs.dropWhile pyIsSpace).reverse.dropWhile pyIsSpace).reverse

/-- Python `str.strip()`. -/
def pyStrip (s : String) : String :=
  ⟨pyStripList s.data⟩

/-- Helper for `pySplit`: accumulate the current word (in reverse) while
scanning; words are maximal runs of non-whitespace characters. -/
def pySplitAux : List Char → List Char → List (List Char)
  | [], acc => if acc.isEmpty then [] else [acc.reverse]
  | c :: cs, acc =>
    if pyIsSpace c then
      if acc.isEmpty then pySplitAux cs [] else acc.reverse :: pySplitAux cs []
    else pySplitAux cs (c :: acc)

/-- Python `str.split()` with no separator argument: split on runs of
whitespace, discarding empty tokens. -/
def pySplit (s : String) : List String :=
  (pySplitAux s.data []).map fun l => ⟨l⟩

/-- Python `str.split(sep)` for a single-character separator: split at every
occurrence, keeping empty pieces (so the result is always non-empty). -/
def pySplitOnChar (sep : Char) : List Char → List (List Char)
  | [] => [[]]
  | c :: cs =>
    let r := pySplitOnChar sep cs
    if c = sep then [] :: r
    else
      match r with
      | [] => [[c]]
      | l :: ls => (c :: l) :: ls

/-- String-level prefix test on the underlying character lists (the
observable content of Python string operations). -/
def strStartsWith (p s : String) : Bool :=
  p.data.isPrefixOf s.data

/-- Substring containment, modelling Python `needle in hay`. -/
def listContainsSub (needle : List Char) : List Char → Bool
  | [] => needle.isPrefixOf []
  | c :: cs => needle.isPrefixOf (c :: cs) || listContainsSub needle cs

/-! ## Composer data model

The enumerated fields carry exactly the item sets installed into the
corresponding combo boxes (`addItems` calls in the source); `text` returns
the `currentText` of each choice. The two-character sequence following the
digits in the orientation items reproduces the exact characters present in
the source file (the same bytes appear in the combo items and in the
`orientation_map` keys). -/

inductive VideoCodec where
  | default | h264 | h265 | av1
deriving DecidableEq

def VideoCodec.text : VideoCodec → String
  | .default => "default"
  | .h264 => "h264"
  | .h265 => "h265"
  | .av1 => "av1"

inductive VideoSource where
  | display | camera
deriving DecidableEq

def VideoSource.text : VideoSource → String
  | .display => "display"
  | .camera => "camera"

inductive KeyboardMode where
  | default | uhid | aoa
deriving DecidableEq

def KeyboardMode.text : KeyboardMode → String
  | .default => "default"
  | .uhid => "uhid"
  | .aoa => "aoa"

inductive Orientation where
  | auto | deg0 | deg90 | deg180 | deg270
deriving DecidableEq

def Orientation.text : Orientation → String
  | .auto => "auto"
  | .deg0 => "0¬∞"
  | .deg90 => "90¬∞"
  | .deg180 => "180¬∞"
  | .deg270 => "270¬∞"

/-- The `orientation_map` dictionary from `get_scrcpy_command`. -/
def orientation_map : List (String × String) :=
  [("0¬∞", "@0"), ("90¬∞", "@90"), ("180¬∞", "@180"), ("270¬∞", "@270")]

/-- The widget state read by `get_scrcpy_command`: one field per checkbox,
spin box, combo box and line edit it consults. Spin-box values are the
non-negative integers shown by the UI. -/
structure MirrorConfig where
  tcpip : Bool
  tcpip_address : String
  video_codec : VideoCodec
  video_source : VideoSource
  mouse_control : Bool
  keyboard_control : Bool
  keyboard_mode : KeyboardMode
  no_control : Bool
  max_size : Bool
  size_value : Nat
  max_fps : Bool
  fps_value : Nat
  bit_rate : Bool
  bitrate_value : Nat
  record : Bool
  record_filename : String
  screen_timeout : Bool
  timeout_value : Nat
  orientation : Orientation
  fullscreen : Bool
  stay_awake : Bool
  show_touches : Bool
  disable_screensaver : Bool
  borderless : Bool
  always_on_top : Bool
  turn_screen_off : Bool
  no_audio : Bool
  custom_params : String

/-- Embedding of `get_scrcpy_command` (source lines 940 to 1025). Tokens are
appended in the source order. The only fallible step is the dictionary
subscript `orientation_map[...]`, taken when the orientation differs from
"auto"; a missing key is represented by `none` (a raised `KeyError`). -/
def get_scrcpy_command (c : MirrorConfig) : Option (List String) :=
  match (if c.orientation.text = "auto" then some []
         else (orientation_map.lookup c.orientation.text).map
           fun v => ["--capture-orientation=" ++ v]) with
  | none => none
  | some orientTokens =>
    some (["scrcpy"]
      ++ (if c.tcpip ∧ c.tcpip_address ≠ "" then ["--tcpip=" ++ c.tcpip_address] else [])
      ++ (if c.video_codec.text ≠ "default" then ["--video-codec", c.video_codec.text] else [])
      ++ (if c.video_source.text = "camera" then ["--video-source=camera"] else [])
      ++ (if c.mouse_control then ["-M"] else [])
      ++ (if c.keyboard_control then
            ["-K"] ++ (if c.keyboard_mode.text ≠ "default"
                       then ["--keyboard=" ++ c.keyboard_mode.text] else [])
          else [])
      ++ (if c.no_control then ["-n"] else [])
      ++ (if c.max_size then ["-m", Nat.repr c.size_value] else [])
      ++ (if c.max_fps then ["--max-fps", Nat.repr c.fps_value] else [])
      ++ (if c.bit_rate then ["-b", Nat.repr c.bitrate_value ++ "M"] else [])
      ++ (if c.record ∧ c.record_filename ≠ "" then ["--record", c.record_filename] else [])
      ++ (if c.screen_timeout then ["--screen-off-timeout", Nat.repr c.timeout_value] else [])
      ++ orientTokens
      ++ (if c.fullscreen then ["-f"] else [])
      ++ (if c.stay_awake then ["-w"] else [])
      ++ (if c.show_touches then ["-t"] else [])
      ++ (if c.disable_screensaver then ["-S"] else [])
      ++ (if c.borderless then ["-b"] else [])
      ++ (if c.always_on_top then ["-T"] else [])
      ++ (if c.turn_screen_off then ["-o"] else [])
      ++ (if c.no_audio then ["--no-audio"] else [])
      ++ (if c.custom_params ≠ "" then pySplit c.custom_params else []))

/-- A configuration with every toggle off and every choice at its default;
concrete configurations below are record updates of this one. -/
def baseConfig : MirrorConfig where
  tcpip := false
  tcpip_address := ""
  video_codec := .default
  video_source := .display
  mouse_control := false
  keyboard_control := false
  keyboard_mode := .default
  no_control := false
  max_size := false
  size_value := 0
  max_fps := false
  fps_value := 0
  bit_rate := false
  bitrate_value := 0
  record := false
  record_filename := ""
  screen_timeout := false
  timeout_value := 0
  orientation := .auto
  fullscreen := false
  stay_awake := false
  show_touches := false
  disable_screensaver := false
  borderless := false
  always_on_top := false
  turn_screen_off := false
  no_audio := false
  custom_params := ""

/-! ## Emission segments

One named definition per `if` block of `get_scrcpy_command`, used to state
the decomposition of the output into ordered segments. -/

def tcpipTokens (c : MirrorConfig) : List String :=
  if c.tcpip ∧ c.tcpip_address ≠ "" then ["--tcpip=" ++ c.tcpip_address] else []

def codecTokens (c : MirrorConfig) : List String :=
  if c.video_codec.text ≠ "default" then ["--video-codec", c.video_codec.text] else []

def sourceTokens (c : MirrorConfig) : List String :=
  if c.video_source.text = "camera" then ["--video-source=camera"] else []

def mouseTokens (c : MirrorConfig) : List String :=
  if c.mouse_control then ["-M"] else []

def keyboardTokens (c : MirrorConfig) : List String :=
  if c.keyboard_control then
    ["-K"] ++ (if c.keyboard_mode.text ≠ "default"
               then ["--keyboard=" ++ c.keyboard_mode.text] else [])
  else []

def noControlTokens (c : MirrorConfig) : List String :=
  if c.no_control then ["-n"] else []

def maxSizeTokens (c : MirrorConfig) : List String :=
  if c.max_size then ["-m", Nat.repr c.size_value] else []

def maxFpsTokens (c : MirrorConfig) : List String :=
  if c.max_fps then ["--max-fps", Nat.repr c.fps_value] else []

def bitrateTokens (c : MirrorConfig) : List String :=
  if c.bit_rate then ["-b", Nat.repr c.bitrate_value ++ "M"] else []

def recordTokens (c : MirrorConfig) : List String :=
  if c.record ∧ c.record_filename ≠ "" then ["--record", c.record_filename] else []

def screenTimeoutTokens (c : MirrorConfig) : List String :=
  if c.screen_timeout then ["--screen-off-timeout", Nat.repr c.timeout_value] else []

def orientationTokens (c : MirrorConfig) : List String :=
  match c.orientation with
  | .auto => []
  | .deg0 => ["--capture-orientation=@0"]
  | .deg90 => ["--capture-orientation=@90"]
  | .deg180 => ["--capture-orientation=@180"]
  | .deg270 => ["--capture-orientation=@270"]

def displayTokens (c : MirrorConfig) : List String :=
  (if c.fullscreen then ["-f"] else [])
    ++ (if c.stay_awake then ["-w"] else [])
    ++ (if c.show_touches then ["-t"] else [])
    ++ (if c.disable_screensaver then ["-S"] else [])
    ++ (if c.borderless then ["-b"] else [])
    ++ (if c.always_on_top then ["-T"] else [])
    ++ (if c.turn_screen_off then ["-o"] else [])
    ++ (if c.no_audio then ["--no-audio"] else [])

def customTokens (c : MirrorConfig) : List String :=
  if c.custom_params ≠ "" then pySplit c.custom_params else []

theorem lookup_deg0 : orientation_map.lookup "0¬∞" = some "@0" := by decide

theorem lookup_deg90 : orientation_map.lookup "90¬∞" = some "@90" := by decide

theorem lookup_deg180 : orientation_map.lookup "180¬∞" = some "@180" := by decide

theorem lookup_deg270 : orientation_map.lookup "270¬∞" = some "@270" := by decide

/-- The composer always succeeds and its output decomposes into the fixed
sequence of segments. -/
theorem get_eq_segments (c : MirrorConfig) :
    get_scrcpy_command c =
      some (["scrcpy"] ++ tcpipTokens c ++ codecTokens c ++ sourceTokens c
        ++ mouseTokens c ++ keyboardTokens c ++ noControlTokens c
        ++ maxSizeTokens c ++ maxFpsTokens c ++ bitrateTokens c
        ++ recordTokens c ++ screenTimeoutTokens c ++ orientationTokens c
        ++ displayTokens c ++ customTokens c) := by
  cases h : c.orientation <;>
    simp [get_scrcpy_command, h, Orientation.text,
      lookup_deg0, lookup_deg90, lookup_deg180, lookup_deg270,
      tcpipTokens, codecTokens, sourceTokens, mouseTokens, keyboardTokens,
      noControlTokens, maxSizeTokens, maxFpsTokens, bitrateTokens,
      recordTokens, screenTimeoutTokens, orientationTokens, displayTokens,
      customTokens]

/-! ## Decimal representations of spin-box values

The numeric tokens `str(value)` are embedded as `Nat.repr`. The lemmas
below show that such a token always starts with a decimal digit, hence is
never mistaken for one of the dash-initial flag tokens. -/

theorem digitChar_isDigit : ∀ m : Nat, m < 10 → (Nat.digitChar m).isDigit = true := by
  decide

theorem toDigitsCore_head (fuel : Nat) :
    ∀ (n : Nat) (ds : List Char),
      (∃ c cs, Nat.toDigitsCore 10 fuel n ds = c :: cs ∧ c.isDigit = true)
        ∨ Nat.toDigitsCore 10 fuel n ds = ds := by
  induction fuel with
  | zero => intro n ds; right; rfl
  | succ fuel ih =>
    intro n ds
    show (∃ c cs,
        (if n / 10 = 0 then Nat.digitChar (n % 10) :: ds
         else Nat.toDigitsCore 10 fuel (n / 10) (Nat.digitChar (n % 10) :: ds)) = c :: cs
          ∧ c.isDigit = true) ∨ _
    by_cases h : n / 10 = 0
    · left
      exact ⟨Nat.digitChar (n % 10), ds, by rw [if_pos h],
        digitChar_isDigit _ (Nat.mod_lt _ (by norm_num))⟩
    · rw [if_neg h]
      rcases ih (n / 10) (Nat.digitChar (n % 10) :: ds) with h1 | h1
      · left; exact h1
      · left
        exact ⟨Nat.digitChar (n % 10), ds, h1,
          digitChar_isDigit _ (Nat.mod_lt _ (by norm_num))⟩

theorem natRepr_head_digit (n : Nat) :
    ∃ c cs, (Nat.repr n).data = c :: cs ∧ c.isDigit = true := by
  have h : (Nat.repr n).data = Nat.toDigitsCore 10 (n + 1) n [] := rfl
  rw [h]
  rcases toDigitsCore_head (n + 1) n [] with h1 | h1
  · exact h1
  · exfalso
    revert h1
    show ¬ (if n / 10 = 0 then Nat.digitChar (n % 10) :: []
            else Nat.toDigitsCore 10 n (n / 10) (Nat.digitChar (n % 10) :: [])) = []
    by_cases h2 : n / 10 = 0
    · rw [if_pos h2]; simp
    · rw [if_neg h2]
      rcases toDigitsCore_head n (n / 10) [Nat.digitChar (n % 10)] with h3 | h3
      · rcases h3 with ⟨c, cs, h3, _⟩; rw [h3]; simp
      · rw [h3]; simp

/-- A pattern starting with a dash never matches a prefix of a decimal
numeral, even one extended to the right by further characters. -/
theorem dash_not_prefixOf_repr (t : List Char) (n : Nat) (rest : List Char) :
    ('-' :: t).isPrefixOf ((Nat.repr n).data ++ rest) = false := by
  rcases natRepr_head_digit n with ⟨c, cs, hdata, hdig⟩
  rw [hdata]
  show (('-' == c) && t.isPrefixOf (cs ++ rest)) = false
  have hc : ('-' == c) = false := by
    rw [beq_eq_false_iff_ne]
    intro he
    rw [← he] at hdig
    simp at hdig
  rw [hc, Bool.false_and]

theorem strStartsWith_dash_repr (t : List Char) (n : Nat) :
    strStartsWith ⟨'-' :: t⟩ (Nat.repr n) = false := by
  have h := dash_not_prefixOf_repr t n []
  rw [List.append_nil] at h
  exact h

theorem strStartsWith_dash_reprM (t : List Char) (n : Nat) :
    strStartsWith ⟨'-' :: t⟩ (Nat.repr n ++ "M") = false := by
  have h : (Nat.repr n ++ "M").data = (Nat.repr n).data ++ ['M'] :=
    String.data_append _ _
  show (⟨'-' :: t⟩ : String).data.isPrefixOf (Nat.repr n ++ "M").data = false
  rw [h]
  exact dash_not_prefixOf_repr t n ['M']

theorem repr_ne_dash_str (t : List Char) (n : Nat) : Nat.repr n ≠ ⟨'-' :: t⟩ := by
  intro he
  rcases natRepr_head_digit n with ⟨c, cs, hdata, hdig⟩
  rw [he] at hdata
  have : '-' = c := by
    have := congrArg (fun l => l.head?) hdata
    simpa using this
  rw [← this] at hdig
  simp at hdig

theorem reprM_ne_dash_str (t : List Char) (n : Nat) :
    Nat.repr n ++ "M" ≠ ⟨'-' :: t⟩ := by
  intro he
  rcases natRepr_head_digit n with ⟨c, cs, hdata, hdig⟩
  have h1 : (Nat.repr n ++ "M").data = c :: (cs ++ ['M']) := by
    rw [String.data_append, hdata]; rfl
  rw [he] at h1
  have : '-' = c := by
    have := congrArg (fun l => l.head?) h1
    simpa using this
  rw [← this] at hdig
  simp at hdig

example :
    get_scrcpy_command { baseConfig with
      video_codec := .h264, mouse_control := true, keyboard_control := true,
      orientation := .deg90, fullscreen := true, custom_params := "--foo bar" } =
      some ["scrcpy", "--video-codec", "h264", "-M", "-K",
            "--capture-orientation=@90", "-f", "--foo", "bar"] := by
  decide

example :
    get_scrcpy_command { baseConfig with bit_rate := true, bitrate_value := 8 } =
      some ["scrcpy", "-b", "8M"] := by
  decide

/-! ## Device address prober

Embedding of the body of `PhoneIPDetector.run` (source lines 131 to 192).
The method issues up to four external calls through `subprocess.run`, in a
fixed order: the device list, then three address-discovery commands. The
observable result of each call is either a raised timeout, a raised
file-not-found (the adb binary absent), or completion with an exit code and
captured standard output; the environment maps the index of a call (0 for
the device list, 1 to 3 for the address strategies) to that result. The
embedding returns the emitted outcome together with the number of external
calls actually issued. -/

inductive CallResult where
  | timeout
  | fileMissing
  | ok (returncode : Int) (stdout : String)
deriving DecidableEq

/-- The outcome emitted through the `ip_found` or `error` signal; each
error constructor stands for one distinct literal message in the source:
`errAdbNotFound` for the message reporting adb missing from PATH (non-zero
exit of the device list), `errNoDevice` for the no-device-connected
message, `errPatternNotMatched` for the could-not-detect-address message,
`errTimedOut` for the adb-command-timed-out message, and
`errAdbFileMissing` for the install-adb message of the file-not-found
handler. -/
inductive ProbeOutcome where
  | ipFound (ip : String)
  | errAdbNotFound
  | errNoDevice
  | errPatternNotMatched
  | errTimedOut
  | errAdbFileMissing
deriving DecidableEq

/-- Greedy match of the regex fragment `\d+\.\d+\.\d+\.\d+` at the start of
the character list: four maximal non-empty digit runs separated by literal
dots. Returns the matched characters and the remainder. Greedy maximal
runs coincide with the backtracking semantics of the Python pattern
because a digit can never satisfy the following literal dot, nor can a
dot or whitespace satisfy a digit class. -/
def matchQuad (cs : List Char) : Option (List Char × List Char) :=
  let d1 := cs.takeWhile Char.isDigit
  let r1 := cs.dropWhile Char.isDigit
  if d1.isEmpty then none else
  match r1 with
  | '.' :: r1b =>
    let d2 := r1b.takeWhile Char.isDigit
    let r2 := r1b.dropWhile Char.isDigit
    if d2.isEmpty then none else
    match r2 with
    | '.' :: r2b =>
      let d3 := r2b.takeWhile Char.isDigit
      let r3 := r2b.dropWhile Char.isDigit
      if d3.isEmpty then none else
      match r3 with
      | '.' :: r3b =>
        let d4 := r3b.takeWhile Char.isDigit
        let r4 := r3b.dropWhile Char.isDigit
        if d4.isEmpty then none else
        some (d1 ++ '.' :: d2 ++ '.' :: d3 ++ '.' :: d4, r4)
      | _ => none
    | _ => none
  | _ => none

/-- Match of the pattern `inet\s+(\d+\.\d+\.\d+\.\d+)` anchored at the
start of the list; returns the capture group. -/
def matchInetAt (cs : List Char) : Option (List Char) :=
  if "inet".data.isPrefixOf cs then
    let rest := (cs.drop 4).dropWhile pyIsSpace
    if ((cs.drop 4).takeWhile pyIsSpace).isEmpty then none
    else (matchQuad rest).map fun p => p.1
  else none

/-- Match of the pattern `inet addr:(\d+\.\d+\.\d+\.\d+)` anchored at the
start of the list; returns the capture group. -/
def matchInetAddrAt (cs : List Char) : Option (List Char) :=
  if "inet addr:".data.isPrefixOf cs then (matchQuad (cs.drop 10)).map fun p => p.1
  else none

/-- Leftmost search, modelling `re.search`: try the anchored match at every
position from left to right. -/
def searchFirst (f : List Char → Option (List Char)) : List Char → Option (List Char)
  | [] => f []
  | c :: cs =>
    match f (c :: cs) with
    | some r => some r
    | none => searchFirst f cs

/-- `re.search` for the wireless-interface pattern of address strategy 1,
returning the captured address as a string. -/
def searchInet (s : String) : Option String :=
  (searchFirst matchInetAt s.data).map fun l => ⟨l⟩

/-- `re.search` for the ifconfig pattern of address strategy 2. -/
def searchInetAddr (s : String) : Option String :=
  (searchFirst matchInetAddrAt s.data).map fun l => ⟨l⟩

/-- `re.match` of the bare pattern `\d+\.\d+\.\d+\.\d+` used by address
strategy 3: a match anchored at the start of the text only, with the rest
of the text unconstrained. -/
def matchQuadAtStart (s : String) : Bool :=
  (matchQuad s.data).isSome

/-- Condition under which the device-list branch reports no connected
device: the stripped output, split at newlines, has at most one line, or
no line past the first contains the substring of letters d e v i c e. -/
def noDeviceCond (out : String) : Bool :=
  let lines := pySplitOnChar '\n' (pyStripList out.data)
  decide (lines.length ≤ 1) || ! lines.tail.any fun l => listContainsSub "device".data l

/-- Embedding of `PhoneIPDetector.run` over the result of the four external
calls in order: the device list, `ip addr show wlan0`, `ifconfig wlan0` and
`getprop dhcp.wlan0.ipaddress`. Returns the emitted outcome paired with
the number of external calls issued. -/
def runSteps (r0 r1 r2 r3 : CallResult) : ProbeOutcome × Nat :=
  match r0 with
  | .timeout => (.errTimedOut, 1)
  | .fileMissing => (.errAdbFileMissing, 1)
  | .ok rc out =>
    if rc ≠ 0 then (.errAdbNotFound, 1)
    else if noDeviceCond out then (.errNoDevice, 1)
    else
      match r1 with
      | .timeout => (.errTimedOut, 2)
      | .fileMissing => (.errAdbFileMissing, 2)
      | .ok rc1 out1 =>
        match (if rc1 = 0 then searchInet out1 else none) with
        | some ip => (.ipFound ip, 2)
        | none =>
          match r2 with
          | .timeout => (.errTimedOut, 3)
          | .fileMissing => (.errAdbFileMissing, 3)
          | .ok rc2 out2 =>
            match (if rc2 = 0 then searchInetAddr out2 else none) with
            | some ip => (.ipFound ip, 3)
            | none =>
              match r3 with
              | .timeout => (.errTimedOut, 4)
              | .fileMissing => (.errAdbFileMissing, 4)
              | .ok rc3 out3 =>
                if rc3 = 0 ∧ pyStrip out3 ≠ "" ∧ matchQuadAtStart (pyStrip out3)
                then (.ipFound (pyStrip out3), 4)
                else (.errPatternNotMatched, 4)

/-- `PhoneIPDetector.run`: the external-call boundary is an environment
mapping the index of each call to its result. -/
def PhoneIPDetector.run (env : Nat → CallResult) : ProbeOutcome × Nat :=
  runSteps (env 0) (env 1) (env 2) (env 3)

/-- Definition following the words of the design document: a bare IPv4
dotted-quad, with nothing before or after the four digit groups. -/
def isBareQuad (s : String) : Bool :=
  match matchQuad s.data with
  | some p => p.2.isEmpty
  | none => false

example : isBareQuad "192.168.1.55" = true := by decide

example : isBareQuad "1.2.3.4 junk" = false := by decide

example : matchQuadAtStart "1.2.3.4 junk" = true := by decide

example : searchInet "5: wlan0\n    inet 192.168.1.55/24 brd" = some "192.168.1.55" := by
  decide

example : searchInetAddr "wlan0 Link encap\n inet addr:10.0.0.7 Bcast" = some "10.0.0.7" := by
  decide

example : noDeviceCond "List of devices attached\n" = true := by decide

example : noDeviceCond "List of devices attached\nemulator-5554\tdevice" = false := by decide

example : noDeviceCond "List of devices attached\nserial\tunauthorized" = true := by decide

/-! ## Generic bookkeeping lemmas for filters and counts over segments -/

theorem pySplit_empty : pySplit "" = [] := rfl

theorem customTokens_eq (c : MirrorConfig) :
    customTokens c = pySplit c.custom_params := by
  by_cases hc : c.custom_params = ""
  · rw [customTokens, if_neg (by simp [hc]), hc, pySplit_empty]
  · rw [customTokens, if_pos hc]

theorem filter_cond_single (p : String → Bool) (b : Prop) [Decidable b] (x : String)
    (h : p x = false) : (if b then [x] else []).filter p = [] := by
  split
  · simp [List.filter, h]
  · rfl

theorem filter_cond_pair (p : String → Bool) (b : Prop) [Decidable b] (x y : String)
    (hx : p x = false) (hy : p y = false) :
    (if b then [x, y] else []).filter p = [] := by
  split
  · simp [List.filter, hx, hy]
  · rfl

theorem filter_cond_keep (p : String → Bool) (b : Prop) [Decidable b] (x : String)
    (h : p x = true) : (if b then [x] else []).filter p = if b then [x] else [] := by
  split
  · simp [List.filter, h]
  · rfl

theorem filter_cond_list (p : String → Bool) (b : Prop) [Decidable b] (xs : List String)
    (h : xs.filter p = []) : (if b then xs else []).filter p = [] := by
  split
  · exact h
  · rfl

theorem count_cond_single (b : Prop) [Decidable b] (x a : String)
    (h : (x == a) = false) : (if b then [x] else []).count a = 0 := by
  split
  · simp [List.count_cons, h]
  · rfl

theorem count_cond_pair (b : Prop) [Decidable b] (x y a : String)
    (hx : (x == a) = false) (hy : (y == a) = false) :
    (if b then [x, y] else []).count a = 0 := by
  split
  · simp [List.count_cons, hx, hy]
  · rfl

theorem count_cond_list (b : Prop) [Decidable b] (xs : List String) (a : String)
    (h : a ∉ xs) : (if b then xs else []).count a = 0 := by
  split
  · exact List.count_eq_zero.mpr h
  · rfl

/-! ## Claims about the composer -/

/-- C1: for every MirrorConfig, `get_scrcpy_command` emits its tokens in
the fixed order: the program name first, then the conditional segments for
the TCP/IP address, video codec, video source, mouse control, keyboard
control (with keyboard mode immediately after), no-control, max size, max
fps, bitrate, record, screen timeout, orientation, the eight display flags
in the order fullscreen, stay-awake, show-touches, disable-screensaver,
borderless, always-on-top, turn-screen-off, no-audio, and finally the
custom-argument tokens; token 0 of every output is the program name. -/
theorem compose_token_order (c : MirrorConfig) :
    get_scrcpy_command c =
      some (["scrcpy"] ++ tcpipTokens c ++ codecTokens c ++ sourceTokens c
        ++ mouseTokens c ++ keyboardTokens c ++ noControlTokens c
        ++ maxSizeTokens c ++ maxFpsTokens c ++ bitrateTokens c
        ++ recordTokens c ++ screenTimeoutTokens c ++ orientationTokens c
        ++ displayTokens c ++ customTokens c)
      ∧ (get_scrcpy_command c).map List.head? = some (some "scrcpy") := by
  refine ⟨get_eq_segments c, ?_⟩
  rw [get_eq_segments c]
  rfl

/-- C2: the two worked examples of the design document: the first example
configuration yields exactly the nine listed tokens, and the
bitrate-only configuration yields exactly the program name followed by the
bitrate flag and the value 8 suffixed with M. -/
theorem compose_worked_examples :
    get_scrcpy_command { baseConfig with
        video_codec := .h264, mouse_control := true, keyboard_control := true,
        orientation := .deg90, fullscreen := true, custom_params := "--foo bar" } =
      some ["scrcpy", "--video-codec", "h264", "-M", "-K",
            "--capture-orientation=@90", "-f", "--foo", "bar"]
    ∧ get_scrcpy_command { baseConfig with bit_rate := true, bitrate_value := 8 } =
      some ["scrcpy", "-b", "8M"] :=
  ⟨by decide, by decide⟩

/-- C8: the output for any configuration equals the output for the same
configuration with an empty custom-arguments string, concatenated with the
whitespace-split tokens of the custom-arguments string: the custom tokens
form a contiguous suffix, in order, unmodified. -/
theorem compose_custom_suffix (c : MirrorConfig) :
    ∃ l0, get_scrcpy_command { c with custom_params := "" } = some l0
      ∧ get_scrcpy_command c = some (l0 ++ pySplit c.custom_params) := by
  refine ⟨_, get_eq_segments _, ?_⟩
  rw [get_eq_segments c, customTokens_eq]
  simp only [Option.some.injEq]
  simp [tcpipTokens, codecTokens, sourceTokens, mouseTokens, keyboardTokens,
    noControlTokens, maxSizeTokens, maxFpsTokens, bitrateTokens, recordTokens,
    screenTimeoutTokens, orientationTokens, displayTokens, customTokens,
    List.append_assoc]

/-- C9: the composer is total: every MirrorConfig (enumerated fields drawn
from their declared value sets) produces a command descriptor, and the
orientation lookup is defined for every non-auto orientation value. -/
theorem compose_total :
    (∀ c : MirrorConfig, ∃ l, get_scrcpy_command c = some l)
      ∧ (∀ o : Orientation, o = Orientation.auto
          ∨ ∃ v, orientation_map.lookup o.text = some v) := by
  constructor
  · intro c
    exact ⟨_, get_eq_segments c⟩
  · intro o
    cases o
    · exact Or.inl rfl
    · exact Or.inr ⟨"@0", lookup_deg0⟩
    · exact Or.inr ⟨"@90", lookup_deg90⟩
    · exact Or.inr ⟨"@180", lookup_deg180⟩
    · exact Or.inr ⟨"@270", lookup_deg270⟩

/-! ## Claims about the prober -/

/-- C5: when the device-list call completes with exit code 0 but the
no-device condition holds on its output, the probe reports the no-device
error immediately, with exactly one external call issued (none of the
three address-discovery invocations runs). -/
theorem probe_no_device_immediate (env : Nat → CallResult) (out : String)
    (h0 : env 0 = CallResult.ok 0 out) (hnd : noDeviceCond out = true) :
    PhoneIPDetector.run env = (ProbeOutcome.errNoDevice, 1) := by
  unfold PhoneIPDetector.run
  rw [h0]
  simp [runSteps, hnd]

/-- Witness for C5 at a concrete environment: a device list whose output
contains only the header line. -/
theorem probe_no_device_immediate_witness :
    (fun _ : Nat => CallResult.ok 0 "List of devices attached") 0
        = CallResult.ok 0 "List of devices attached"
      ∧ noDeviceCond "List of devices attached" = true
      ∧ PhoneIPDetector.run (fun _ => CallResult.ok 0 "List of devices attached")
        = (ProbeOutcome.errNoDevice, 1) :=
  ⟨rfl, by decide,
    probe_no_device_immediate (fun _ => CallResult.ok 0 "List of devices attached")
      "List of devices attached" rfl (by decide)⟩

/-- C4: if one of the external calls the probe actually issues times out,
the probe reports the timed-out error, and that call is the last one
issued: no later fallback step runs, and the timeout is never converted
into the pattern-not-matched error. -/
theorem probe_timeout_immediate (env : Nat → CallResult) (k : Nat)
    (hk : env k = CallResult.timeout) (hlt : k < (PhoneIPDetector.run env).2) :
    PhoneIPDetector.run env = (ProbeOutcome.errTimedOut, k + 1) := by
  rcases h0 : env 0 with _ | _ | ⟨rc, out⟩
  · have hrun : PhoneIPDetector.run env = (ProbeOutcome.errTimedOut, 1) := by
      simp [PhoneIPDetector.run, runSteps, h0]
    rw [hrun] at hlt ⊢
    simp only at hlt
    interval_cases k
    rfl
  · have hrun : PhoneIPDetector.run env = (ProbeOutcome.errAdbFileMissing, 1) := by
      simp [PhoneIPDetector.run, runSteps, h0]
    rw [hrun] at hlt ⊢
    simp only at hlt
    interval_cases k
    rw [h0] at hk
    simp at hk
  · by_cases hrc : rc = 0
    case neg =>
      have hrun : PhoneIPDetector.run env = (ProbeOutcome.errAdbNotFound, 1) := by
        simp [PhoneIPDetector.run, runSteps, h0, hrc]
      rw [hrun] at hlt ⊢
      simp only at hlt
      interval_cases k
      rw [h0] at hk
      simp at hk
    subst hrc
    by_cases hnd : noDeviceCond out = true
    case pos =>
      have hrun : PhoneIPDetector.run env = (ProbeOutcome.errNoDevice, 1) := by
        simp [PhoneIPDetector.run, runSteps, h0, hnd]
      rw [hrun] at hlt ⊢
      simp only at hlt
      interval_cases k
      rw [h0] at hk
      simp at hk
    rcases h1 : env 1 with _ | _ | ⟨rc1, out1⟩
    · have hrun : PhoneIPDetector.run env = (ProbeOutcome.errTimedOut, 2) := by
        simp [PhoneIPDetector.run, runSteps, h0, h1, hnd]
      rw [hrun] at hlt ⊢
      simp only at hlt
      interval_cases k
      · rw [h0] at hk
        simp at hk
      · rfl
    · have hrun : PhoneIPDetector.run env = (ProbeOutcome.errAdbFileMissing, 2) := by
        simp [PhoneIPDetector.run, runSteps, h0, h1, hnd]
      rw [hrun] at hlt ⊢
      simp only at hlt
      interval_cases k
      · rw [h0] at hk
        simp at hk
      · rw [h1] at hk
        simp at hk
    rcases hs1 : (if rc1 = 0 then searchInet out1 else none) with _ | ip1
    rotate_left
    · have hrun : PhoneIPDetector.run env = (ProbeOutcome.ipFound ip1, 2) := by
        simp [PhoneIPDetector.run, runSteps, h0, h1, hnd, hs1]
      rw [hrun] at hlt ⊢
      simp only at hlt
      interval_cases k
      · rw [h0] at hk
        simp at hk
      · rw [h1] at hk
        simp at hk
    rcases h2 : env 2 with _ | _ | ⟨rc2, out2⟩
    · have hrun : PhoneIPDetector.run env = (ProbeOutcome.errTimedOut, 3) := by
        simp [PhoneIPDetector.run, runSteps, h0, h1, h2, hnd, hs1]
      rw [hrun] at hlt ⊢
      simp only at hlt
      interval_cases k
      · rw [h0] at hk
        simp at hk
      · rw [h1] at hk
        simp at hk
      · rfl
    · have hrun : PhoneIPDetector.run env = (ProbeOutcome.errAdbFileMissing, 3) := by
        simp [PhoneIPDetector.run, runSteps, h0, h1, h2, hnd, hs1]
      rw [hrun] at hlt ⊢
      simp only at hlt
      interval_cases k
      · rw [h0] at hk
        simp at hk
      · rw [h1] at hk
        simp at hk
      · rw [h2] at hk
        simp at hk
    rcases hs2 : (if rc2 = 0 then searchInetAddr out2 else none) with _ | ip2
    rotate_left
    · have hrun : PhoneIPDetector.run env = (ProbeOutcome.ipFound ip2, 3) := by
        simp [PhoneIPDetector.run, runSteps, h0, h1, h2, hnd, hs1, hs2]
      rw [hrun] at hlt ⊢
      simp only at hlt
      interval_cases k
      · rw [h0] at hk
        simp at hk
      · rw [h1] at hk
        simp at hk
      · rw [h2] at hk
        simp at hk
    rcases h3 : env 3 with _ | _ | ⟨rc3, out3⟩
    · have hrun : PhoneIPDetector.run env = (ProbeOutcome.errTimedOut, 4) := by
        simp [PhoneIPDetector.run, runSteps, h0, h1, h2, h3, hnd, hs1, hs2]
      rw [hrun] at hlt ⊢
      simp only at hlt
      interval_cases k
      · rw [h0] at hk
        simp at hk
      · rw [h1] at hk
        simp at hk
      · rw [h2] at hk
        simp at hk
      · rfl
    · have hrun : PhoneIPDetector.run env = (ProbeOutcome.errAdbFileMissing, 4) := by
        simp [PhoneIPDetector.run, runSteps, h0, h1, h2, h3, hnd, hs1, hs2]
      rw [hrun] at hlt ⊢
      simp only at hlt
      interval_cases k
      · rw [h0] at hk
        simp at hk
      · rw [h1] at hk
        simp at hk
      · rw [h2] at hk
        simp at hk
      · rw [h3] at hk
        simp at hk
    · have hn4 : (PhoneIPDetector.run env).2 = 4 := by
        by_cases hq : rc3 = 0 ∧ pyStrip out3 ≠ "" ∧ matchQuadAtStart (pyStrip out3) = true
        · simp [PhoneIPDetector.run, runSteps, h0, h1, h2, h3, hnd, hs1, hs2, hq]
        · simp [PhoneIPDetector.run, runSteps, h0, h1, h2, h3, hnd, hs1, hs2, hq]
      rw [hn4] at hlt
      interval_cases k
      · rw [h0] at hk
        simp at hk
      · rw [h1] at hk
        simp at hk
      · rw [h2] at hk
        simp at hk
      · rw [h3] at hk
        simp at hk

/-- Witness for C4: an environment whose very first call times out; the
probe stops after that single call with the timed-out error. -/
theorem probe_timeout_immediate_witness :
    (fun _ : Nat => CallResult.timeout) 0 = CallResult.timeout
      ∧ 0 < (PhoneIPDetector.run fun _ => CallResult.timeout).2
      ∧ PhoneIPDetector.run (fun _ => CallResult.timeout)
        = (ProbeOutcome.errTimedOut, 0 + 1) :=
  ⟨rfl, by decide,
    probe_timeout_immediate (fun _ => CallResult.timeout) 0 rfl (by decide)⟩

/-- A bare dotted-quad also passes the anchored-at-start match and is a
non-empty string. -/
theorem isBareQuad_imp (s : String) (h : isBareQuad s = true) :
    matchQuadAtStart s = true ∧ s ≠ "" := by
  unfold isBareQuad at h
  rcases hm : matchQuad s.data with _ | p
  · rw [hm] at h
    exact absurd h (by simp)
  · constructor
    · unfold matchQuadAtStart
      rw [hm]
      rfl
    · intro he
      have hnone : matchQuad ("" : String).data = none := rfl
      rw [he, hnone] at hm
      simp at hm

/-- Environment reaching the third address strategy with a reply that
begins with a dotted-quad but carries trailing text. -/
def envQuadJunk : Nat → CallResult := fun n =>
  match n with
  | 0 => CallResult.ok 0 "List of devices attached\nserial\tdevice"
  | 1 => CallResult.ok 0 ""
  | 2 => CallResult.ok 0 ""
  | _ => CallResult.ok 0 "1.2.3.4 junk"

/-- Counterexample to C3 as stated: a probe run reaches the third address
strategy and the property query returns text that is not a bare IPv4
dotted-quad (it merely begins with one), yet the probe reports Found with
the whole stripped text instead of NotFound(pattern-not-matched). -/
theorem probe_third_strategy_counterexample :
    isBareQuad "1.2.3.4 junk" = false
      ∧ PhoneIPDetector.run envQuadJunk = (ProbeOutcome.ipFound "1.2.3.4 junk", 4) :=
  ⟨by decide, by decide⟩

/-- C3 amended: in a probe run that reaches the third address strategy and
whose property query completes with exit code 0, the probe returns Found
with the entire stripped reply text whenever that text is non-empty and
merely begins with a dotted-quad digit pattern (in particular whenever it
is a bare IPv4 dotted-quad), and returns the pattern-not-matched error
otherwise. -/
theorem probe_third_strategy (env : Nat → CallResult) (out0 out1 out2 out3 : String)
    (rc1 rc2 : Int)
    (h0 : env 0 = CallResult.ok 0 out0) (hnd : noDeviceCond out0 = false)
    (h1 : env 1 = CallResult.ok rc1 out1)
    (hs1 : (if rc1 = 0 then searchInet out1 else none) = none)
    (h2 : env 2 = CallResult.ok rc2 out2)
    (hs2 : (if rc2 = 0 then searchInetAddr out2 else none) = none)
    (h3 : env 3 = CallResult.ok 0 out3) :
    PhoneIPDetector.run env =
      (if pyStrip out3 ≠ "" ∧ matchQuadAtStart (pyStrip out3) = true
       then (ProbeOutcome.ipFound (pyStrip out3), 4)
       else (ProbeOutcome.errPatternNotMatched, 4))
      ∧ (isBareQuad (pyStrip out3) = true →
          PhoneIPDetector.run env = (ProbeOutcome.ipFound (pyStrip out3), 4)) := by
  have hmain : PhoneIPDetector.run env =
      (if pyStrip out3 ≠ "" ∧ matchQuadAtStart (pyStrip out3) = true
       then (ProbeOutcome.ipFound (pyStrip out3), 4)
       else (ProbeOutcome.errPatternNotMatched, 4)) := by
    by_cases hq : pyStrip out3 ≠ "" ∧ matchQuadAtStart (pyStrip out3) = true
    · rw [if_pos hq]
      simp [PhoneIPDetector.run, runSteps, h0, h1, h2, h3, hnd, hs1, hs2,
        hq.1, hq.2]
    · rw [if_neg hq]
      by_cases he : pyStrip out3 = ""
      · simp [PhoneIPDetector.run, runSteps, h0, h1, h2, h3, hnd, hs1, hs2, he]
      · have hmq : matchQuadAtStart (pyStrip out3) = false := by
          cases hmq : matchQuadAtStart (pyStrip out3)
          · rfl
          · exact absurd ⟨he, hmq⟩ hq
        simp [PhoneIPDetector.run, runSteps, h0, h1, h2, h3, hnd, hs1, hs2, hmq]
  refine ⟨hmain, fun hb => ?_⟩
  rcases isBareQuad_imp _ hb with ⟨hq1, hq2⟩
  rw [hmain, if_pos ⟨hq2, hq1⟩]

/-- Witness for C3 amended: a run reaching the third strategy whose
property query returns a bare dotted-quad. -/
def envQuadBare : Nat → CallResult := fun n =>
  match n with
  | 0 => CallResult.ok 0 "List of devices attached\nserial\tdevice"
  | 1 => CallResult.ok 0 ""
  | 2 => CallResult.ok 0 ""
  | _ => CallResult.ok 0 "192.168.1.55\n"

theorem probe_third_strategy_witness :
    envQuadBare 0 = CallResult.ok 0 "List of devices attached\nserial\tdevice"
      ∧ noDeviceCond "List of devices attached\nserial\tdevice" = false
      ∧ PhoneIPDetector.run envQuadBare =
        (if pyStrip "192.168.1.55\n" ≠ ""
            ∧ matchQuadAtStart (pyStrip "192.168.1.55\n") = true
         then (ProbeOutcome.ipFound (pyStrip "192.168.1.55\n"), 4)
         else (ProbeOutcome.errPatternNotMatched, 4)) :=
  ⟨rfl, by decide,
    (probe_third_strategy envQuadBare "List of devices attached\nserial\tdevice"
      "" "" "192.168.1.55\n" 0 0 rfl (by decide) rfl (by decide) rfl (by decide)
      rfl).1⟩

/-! ## Specialisations of the digit-head lemmas to the flag literals -/

theorem tcp_prefix_repr (n : Nat) : strStartsWith "--tcpip=" (Nat.repr n) = false := by
  have h : ("--tcpip=" : String) = ⟨'-' :: "-tcpip=".data⟩ := rfl
  rw [h]
  exact strStartsWith_dash_repr _ n

theorem tcp_prefix_reprM (n : Nat) :
    strStartsWith "--tcpip=" (Nat.repr n ++ "M") = false := by
  have h : ("--tcpip=" : String) = ⟨'-' :: "-tcpip=".data⟩ := rfl
  rw [h]
  exact strStartsWith_dash_reprM _ n

theorem kb_prefix_repr (n : Nat) : strStartsWith "--keyboard=" (Nat.repr n) = false := by
  have h : ("--keyboard=" : String) = ⟨'-' :: "-keyboard=".data⟩ := rfl
  rw [h]
  exact strStartsWith_dash_repr _ n

theorem kb_prefix_reprM (n : Nat) :
    strStartsWith "--keyboard=" (Nat.repr n ++ "M") = false := by
  have h : ("--keyboard=" : String) = ⟨'-' :: "-keyboard=".data⟩ := rfl
  rw [h]
  exact strStartsWith_dash_reprM _ n

theorem repr_ne_db (n : Nat) : Nat.repr n ≠ "-b" := by
  have h : ("-b" : String) = ⟨'-' :: ['b']⟩ := rfl
  rw [h]
  exact repr_ne_dash_str _ n

theorem reprM_ne_db (n : Nat) : Nat.repr n ++ "M" ≠ "-b" := by
  have h : ("-b" : String) = ⟨'-' :: ['b']⟩ := rfl
  rw [h]
  exact reprM_ne_dash_str _ n

theorem tcpip_token_ne_db (a : String) : ("--tcpip=" ++ a) ≠ "-b" := by
  intro h
  have h2 := congrArg (fun s => s.data.length) h
  simp [String.data_append] at h2

/-! ## Occurrences of the TCP/IP flag token among the segments -/

theorem f6_scrcpy : List.filter (strStartsWith "--tcpip=") ["scrcpy"] = [] := rfl

theorem strStartsWith_append_self (p s : String) : strStartsWith p (p ++ s) = true := by
  unfold strStartsWith
  rw [String.data_append]
  simp only [List.isPrefixOf_iff_prefix]
  exact List.prefix_append _ _

theorem f6_tcpip (c : MirrorConfig) :
    (tcpipTokens c).filter (strStartsWith "--tcpip=") = tcpipTokens c := by
  unfold tcpipTokens
  exact filter_cond_keep _ _ _ (strStartsWith_append_self _ _)

theorem f6_codec (c : MirrorConfig) :
    (codecTokens c).filter (strStartsWith "--tcpip=") = [] := by
  cases hc : c.video_codec <;> simp only [codecTokens, hc] <;> decide

theorem f6_source (c : MirrorConfig) :
    (sourceTokens c).filter (strStartsWith "--tcpip=") = [] := by
  cases hs : c.video_source <;> simp only [sourceTokens, hs] <;> decide

theorem f6_mouse (c : MirrorConfig) :
    (mouseTokens c).filter (strStartsWith "--tcpip=") = [] := by
  unfold mouseTokens
  exact filter_cond_single _ _ _ rfl

theorem f6_keyboard (c : MirrorConfig) :
    (keyboardTokens c).filter (strStartsWith "--tcpip=") = [] := by
  cases hk : c.keyboard_control <;> cases hm : c.keyboard_mode <;>
    simp only [keyboardTokens, hk, hm] <;> decide

theorem f6_noControl (c : MirrorConfig) :
    (noControlTokens c).filter (strStartsWith "--tcpip=") = [] := by
  unfold noControlTokens
  exact filter_cond_single _ _ _ rfl

theorem f6_maxSize (c : MirrorConfig) :
    (maxSizeTokens c).filter (strStartsWith "--tcpip=") = [] := by
  unfold maxSizeTokens
  exact filter_cond_pair _ _ _ _ rfl (tcp_prefix_repr c.size_value)

theorem f6_maxFps (c : MirrorConfig) :
    (maxFpsTokens c).filter (strStartsWith "--tcpip=") = [] := by
  unfold maxFpsTokens
  exact filter_cond_pair _ _ _ _ rfl (tcp_prefix_repr c.fps_value)

theorem f6_bitrate (c : MirrorConfig) :
    (bitrateTokens c).filter (strStartsWith "--tcpip=") = [] := by
  unfold bitrateTokens
  exact filter_cond_pair _ _ _ _ rfl (tcp_prefix_reprM c.bitrate_value)

theorem f6_record (c : MirrorConfig)
    (hrec : strStartsWith "--tcpip=" c.record_filename = false) :
    (recordTokens c).filter (strStartsWith "--tcpip=") = [] := by
  unfold recordTokens
  exact filter_cond_pair _ _ _ _ rfl hrec

theorem f6_screenTimeout (c : MirrorConfig) :
    (screenTimeoutTokens c).filter (strStartsWith "--tcpip=") = [] := by
  unfold screenTimeoutTokens
  exact filter_cond_pair _ _ _ _ rfl (tcp_prefix_repr c.timeout_value)

theorem f6_orientation (c : MirrorConfig) :
    (orientationTokens c).filter (strStartsWith "--tcpip=") = [] := by
  cases ho : c.orientation <;> simp only [orientationTokens, ho] <;> decide

theorem f6_display (c : MirrorConfig) :
    (displayTokens c).filter (strStartsWith "--tcpip=") = [] := by
  unfold displayTokens
  simp only [List.filter_append]
  rw [filter_cond_single _ _ "-f" rfl, filter_cond_single _ _ "-w" rfl,
    filter_cond_single _ _ "-t" rfl, filter_cond_single _ _ "-S" rfl,
    filter_cond_single _ _ "-b" rfl, filter_cond_single _ _ "-T" rfl,
    filter_cond_single _ _ "-o" rfl, filter_cond_single _ _ "--no-audio" rfl]
  rfl

theorem f6_custom (c : MirrorConfig)
    (hcust : ∀ t ∈ pySplit c.custom_params, strStartsWith "--tcpip=" t = false) :
    (customTokens c).filter (strStartsWith "--tcpip=") = [] := by
  unfold customTokens
  refine filter_cond_list _ _ _ ?_
  refine List.filter_eq_nil_iff.mpr fun a ha => ?_
  rw [hcust a ha]
  simp

/-- Configuration with the TCP/IP enable flag unset and a custom-argument
string that spells a token of the TCP/IP flag form for this same address. -/
def cfgTcpipInjected : MirrorConfig :=
  { baseConfig with
      tcpip := false, tcpip_address := "1.2.3.4",
      custom_params := "--tcpip=1.2.3.4" }

/-- Counterexample to C6 as stated: with the TCP/IP enable flag unset, a
custom-argument token of the TCP/IP flag form (carrying exactly this
configuration address text) still appears in the output. -/
theorem tcpip_flag_gating_counterexample :
    cfgTcpipInjected.tcpip = false
      ∧ get_scrcpy_command cfgTcpipInjected = some ["scrcpy", "--tcpip=1.2.3.4"]
      ∧ strStartsWith "--tcpip=" "--tcpip=1.2.3.4" = true
      ∧ "--tcpip=1.2.3.4" = "--tcpip=" ++ cfgTcpipInjected.tcpip_address :=
  ⟨rfl, by decide, by decide, rfl⟩

/-- C6 amended: provided neither the record filename nor any
custom-argument token is itself of the TCP/IP flag form, the tokens of the
TCP/IP flag form in the output are exactly one token carrying the address
when the enable flag is set and the address text is non-empty, and none
otherwise. -/
theorem tcpip_flag_gating (c : MirrorConfig) (l : List String)
    (hrec : strStartsWith "--tcpip=" c.record_filename = false)
    (hcust : ∀ t ∈ pySplit c.custom_params, strStartsWith "--tcpip=" t = false)
    (hl : get_scrcpy_command c = some l) :
    l.filter (strStartsWith "--tcpip=")
      = if c.tcpip ∧ c.tcpip_address ≠ "" then ["--tcpip=" ++ c.tcpip_address] else [] := by
  rw [get_eq_segments] at hl
  injection hl with hl
  subst hl
  simp only [List.filter_append]
  rw [f6_scrcpy, f6_tcpip c, f6_codec c, f6_source c, f6_mouse c, f6_keyboard c,
    f6_noControl c, f6_maxSize c, f6_maxFps c, f6_bitrate c, f6_record c hrec,
    f6_screenTimeout c, f6_orientation c, f6_display c, f6_custom c hcust]
  simp [tcpipTokens]

/-- Configuration with the TCP/IP flag enabled and a non-empty address. -/
def cfgTcpipOn : MirrorConfig :=
  { baseConfig with tcpip := true, tcpip_address := "192.168.1.42" }

/-- Witness for C6 amended at a configuration with the TCP/IP flag enabled
and a non-empty address. -/
theorem tcpip_flag_gating_witness :
    strStartsWith "--tcpip=" cfgTcpipOn.record_filename = false
      ∧ (∀ t ∈ pySplit cfgTcpipOn.custom_params, strStartsWith "--tcpip=" t = false)
      ∧ get_scrcpy_command cfgTcpipOn = some ["scrcpy", "--tcpip=192.168.1.42"]
      ∧ ["scrcpy", "--tcpip=192.168.1.42"].filter (strStartsWith "--tcpip=")
        = if cfgTcpipOn.tcpip ∧ cfgTcpipOn.tcpip_address ≠ ""
          then ["--tcpip=" ++ cfgTcpipOn.tcpip_address] else [] :=
  ⟨rfl, fun t ht => absurd ht (List.not_mem_nil t), by decide,
    tcpip_flag_gating cfgTcpipOn _ rfl
      (fun t ht => absurd ht (List.not_mem_nil t)) (by decide)⟩

/-! ## Occurrences of the keyboard-mode flag token among the segments -/

theorem f7_scrcpy : List.filter (strStartsWith "--keyboard=") ["scrcpy"] = [] := rfl

theorem f7_tcpip (c : MirrorConfig) :
    (tcpipTokens c).filter (strStartsWith "--keyboard=") = [] := by
  unfold tcpipTokens
  exact filter_cond_single _ _ _ rfl

theorem f7_codec (c : MirrorConfig) :
    (codecTokens c).filter (strStartsWith "--keyboard=") = [] := by
  cases hc : c.video_codec <;> simp only [codecTokens, hc] <;> decide

theorem f7_source (c : MirrorConfig) :
    (sourceTokens c).filter (strStartsWith "--keyboard=") = [] := by
  cases hs : c.video_source <;> simp only [sourceTokens, hs] <;> decide

theorem f7_mouse (c : MirrorConfig) :
    (mouseTokens c).filter (strStartsWith "--keyboard=") = [] := by
  unfold mouseTokens
  exact filter_cond_single _ _ _ rfl

theorem f7_keyboard (c : MirrorConfig) :
    (keyboardTokens c).filter (strStartsWith "--keyboard=")
      = if c.keyboard_control ∧ c.keyboard_mode.text ≠ "default"
        then ["--keyboard=" ++ c.keyboard_mode.text] else [] := by
  cases hk : c.keyboard_control <;> cases hm : c.keyboard_mode <;>
    simp only [keyboardTokens, hk, hm] <;> decide

theorem f7_noControl (c : MirrorConfig) :
    (noControlTokens c).filter (strStartsWith "--keyboard=") = [] := by
  unfold noControlTokens
  exact filter_cond_single _ _ _ rfl

theorem f7_maxSize (c : MirrorConfig) :
    (maxSizeTokens c).filter (strStartsWith "--keyboard=") = [] := by
  unfold maxSizeTokens
  exact filter_cond_pair _ _ _ _ rfl (kb_prefix_repr c.size_value)

theorem f7_maxFps (c : MirrorConfig) :
    (maxFpsTokens c).filter (strStartsWith "--keyboard=") = [] := by
  unfold maxFpsTokens
  exact filter_cond_pair _ _ _ _ rfl (kb_prefix_repr c.fps_value)

theorem f7_bitrate (c : MirrorConfig) :
    (bitrateTokens c).filter (strStartsWith "--keyboard=") = [] := by
  unfold bitrateTokens
  exact filter_cond_pair _ _ _ _ rfl (kb_prefix_reprM c.bitrate_value)

theorem f7_record (c : MirrorConfig)
    (hrec : strStartsWith "--keyboard=" c.record_filename = false) :
    (recordTokens c).filter (strStartsWith "--keyboard=") = [] := by
  unfold recordTokens
  exact filter_cond_pair _ _ _ _ rfl hrec

theorem f7_screenTimeout (c : MirrorConfig) :
    (screenTimeoutTokens c).filter (strStartsWith "--keyboard=") = [] := by
  unfold screenTimeoutTokens
  exact filter_cond_pair _ _ _ _ rfl (kb_prefix_repr c.timeout_value)

theorem f7_orientation (c : MirrorConfig) :
    (orientationTokens c).filter (strStartsWith "--keyboard=") = [] := by
  cases ho : c.orientation <;> simp only [orientationTokens, ho] <;> decide

theorem f7_display (c : MirrorConfig) :
    (displayTokens c).filter (strStartsWith "--keyboard=") = [] := by
  unfold displayTokens
  simp only [List.filter_append]
  rw [filter_cond_single _ _ "-f" rfl, filter_cond_single _ _ "-w" rfl,
    filter_cond_single _ _ "-t" rfl, filter_cond_single _ _ "-S" rfl,
    filter_cond_single _ _ "-b" rfl, filter_cond_single _ _ "-T" rfl,
    filter_cond_single _ _ "-o" rfl, filter_cond_single _ _ "--no-audio" rfl]
  rfl

theorem f7_custom (c : MirrorConfig)
    (hcust : ∀ t ∈ pySplit c.custom_params, strStartsWith "--keyboard=" t = false) :
    (customTokens c).filter (strStartsWith "--keyboard=") = [] := by
  unfold customTokens
  refine filter_cond_list _ _ _ ?_
  refine List.filter_eq_nil_iff.mpr fun a ha => ?_
  rw [hcust a ha]
  simp

/-- Configuration with keyboard control disabled, a non-default keyboard
mode, and a custom-argument string spelling exactly the keyboard-mode flag
token for that mode. -/
def cfgKeyboardInjected : MirrorConfig :=
  { baseConfig with
      keyboard_control := false, keyboard_mode := .uhid,
      custom_params := "--keyboard=uhid" }

/-- Counterexample to C7 as stated: with keyboard control disabled and a
non-default keyboard mode, a token of the keyboard-mode flag form (exactly
the one for this configuration mode) still appears in the output. -/
theorem keyboard_mode_flag_counterexample :
    cfgKeyboardInjected.keyboard_control = false
      ∧ cfgKeyboardInjected.keyboard_mode ≠ KeyboardMode.default
      ∧ get_scrcpy_command cfgKeyboardInjected = some ["scrcpy", "--keyboard=uhid"]
      ∧ strStartsWith "--keyboard=" "--keyboard=uhid" = true
      ∧ "--keyboard=uhid" = "--keyboard=" ++ cfgKeyboardInjected.keyboard_mode.text :=
  ⟨rfl, by decide, by decide, by decide, rfl⟩

/-- C7 amended: provided neither the record filename nor any
custom-argument token is itself of the keyboard-mode flag form: when
keyboard control is disabled no keyboard-mode flag token appears in the
output, even for a non-default keyboard mode; and when keyboard control is
enabled with a non-default mode, the keyboard-mode flag token appears
immediately after the keyboard-control flag. -/
theorem keyboard_mode_flag_gating (c : MirrorConfig) (l : List String)
    (hrec : strStartsWith "--keyboard=" c.record_filename = false)
    (hcust : ∀ t ∈ pySplit c.custom_params, strStartsWith "--keyboard=" t = false)
    (hl : get_scrcpy_command c = some l) :
    (c.keyboard_control = false → l.filter (strStartsWith "--keyboard=") = [])
      ∧ (c.keyboard_control = true → c.keyboard_mode ≠ KeyboardMode.default →
          ∃ pre post, l = pre ++ ["-K", "--keyboard=" ++ c.keyboard_mode.text] ++ post) := by
  rw [get_eq_segments] at hl
  injection hl with hl
  subst hl
  constructor
  · intro hkc
    simp only [List.filter_append]
    rw [f7_scrcpy, f7_tcpip c, f7_codec c, f7_source c, f7_mouse c, f7_keyboard c,
      f7_noControl c, f7_maxSize c, f7_maxFps c, f7_bitrate c, f7_record c hrec,
      f7_screenTimeout c, f7_orientation c, f7_display c, f7_custom c hcust]
    simp [hkc]
  · intro hkc hmode
    have hkt : keyboardTokens c = ["-K", "--keyboard=" ++ c.keyboard_mode.text] := by
      cases hm : c.keyboard_mode
      · rw [hm] at hmode
        exact absurd rfl hmode
      · simp [keyboardTokens, hkc, hm, KeyboardMode.text]
      · simp [keyboardTokens, hkc, hm, KeyboardMode.text]
    refine ⟨["scrcpy"] ++ tcpipTokens c ++ codecTokens c ++ sourceTokens c
        ++ mouseTokens c,
      noControlTokens c ++ maxSizeTokens c ++ maxFpsTokens c ++ bitrateTokens c
        ++ recordTokens c ++ screenTimeoutTokens c ++ orientationTokens c
        ++ displayTokens c ++ customTokens c, ?_⟩
    rw [hkt]
    simp [List.append_assoc]

/-- Configuration with keyboard control enabled and the uhid keyboard
mode. -/
def cfgKeyboardOn : MirrorConfig :=
  { baseConfig with keyboard_control := true, keyboard_mode := .uhid }

/-- Witness for C7 amended at a configuration with keyboard control
enabled and a non-default mode. -/
theorem keyboard_mode_flag_gating_witness :
    strStartsWith "--keyboard=" cfgKeyboardOn.record_filename = false
      ∧ (∀ t ∈ pySplit cfgKeyboardOn.custom_params,
          strStartsWith "--keyboard=" t = false)
      ∧ get_scrcpy_command cfgKeyboardOn = some ["scrcpy", "-K", "--keyboard=uhid"]
      ∧ cfgKeyboardOn.keyboard_control = true
      ∧ cfgKeyboardOn.keyboard_mode ≠ KeyboardMode.default
      ∧ ∃ pre post, ["scrcpy", "-K", "--keyboard=uhid"]
          = pre ++ ["-K", "--keyboard=" ++ cfgKeyboardOn.keyboard_mode.text] ++ post :=
  ⟨rfl, fun t ht => absurd ht (List.not_mem_nil t), by decide, rfl, by decide,
    (keyboard_mode_flag_gating cfgKeyboardOn _ rfl
      (fun t ht => absurd ht (List.not_mem_nil t)) (by decide)).2 rfl (by decide)⟩

/-! ## Occurrences of the token used by both the bitrate and borderless
flags among the segments -/

theorem c10_scrcpy : (["scrcpy"] : List String).count "-b" = 0 := by decide

theorem c10_tcpip (c : MirrorConfig) : (tcpipTokens c).count "-b" = 0 := by
  unfold tcpipTokens
  exact count_cond_single _ _ _ (beq_eq_false_iff_ne.mpr (tcpip_token_ne_db _))

theorem c10_codec (c : MirrorConfig) : (codecTokens c).count "-b" = 0 := by
  cases hc : c.video_codec <;> simp only [codecTokens, hc] <;> decide

theorem c10_source (c : MirrorConfig) : (sourceTokens c).count "-b" = 0 := by
  cases hs : c.video_source <;> simp only [sourceTokens, hs] <;> decide

theorem c10_mouse (c : MirrorConfig) : (mouseTokens c).count "-b" = 0 := by
  unfold mouseTokens
  exact count_cond_single _ _ _ (by decide)

theorem c10_keyboard (c : MirrorConfig) : (keyboardTokens c).count "-b" = 0 := by
  cases hk : c.keyboard_control <;> cases hm : c.keyboard_mode <;>
    simp only [keyboardTokens, hk, hm] <;> decide

theorem c10_noControl (c : MirrorConfig) : (noControlTokens c).count "-b" = 0 := by
  unfold noControlTokens
  exact count_cond_single _ _ _ (by decide)

theorem c10_maxSize (c : MirrorConfig) : (maxSizeTokens c).count "-b" = 0 := by
  unfold maxSizeTokens
  exact count_cond_pair _ _ _ _ (by decide)
    (beq_eq_false_iff_ne.mpr (repr_ne_db c.size_value))

theorem c10_maxFps (c : MirrorConfig) : (maxFpsTokens c).count "-b" = 0 := by
  unfold maxFpsTokens
  exact count_cond_pair _ _ _ _ (by decide)
    (beq_eq_false_iff_ne.mpr (repr_ne_db c.fps_value))

theorem c10_bitrate (c : MirrorConfig) :
    (bitrateTokens c).count "-b" = if c.bit_rate then 1 else 0 := by
  unfold bitrateTokens
  split
  · simp [List.count_cons, beq_eq_false_iff_ne.mpr (reprM_ne_db c.bitrate_value)]
  · rfl

theorem c10_record (c : MirrorConfig) (hrec : c.record_filename ≠ "-b") :
    (recordTokens c).count "-b" = 0 := by
  unfold recordTokens
  exact count_cond_pair _ _ _ _ (by decide) (beq_eq_false_iff_ne.mpr hrec)

theorem c10_screenTimeout (c : MirrorConfig) :
    (screenTimeoutTokens c).count "-b" = 0 := by
  unfold screenTimeoutTokens
  exact count_cond_pair _ _ _ _ (by decide)
    (beq_eq_false_iff_ne.mpr (repr_ne_db c.timeout_value))

theorem c10_orientation (c : MirrorConfig) :
    (orientationTokens c).count "-b" = 0 := by
  cases ho : c.orientation <;> simp only [orientationTokens, ho] <;> decide

theorem c10_display (c : MirrorConfig) :
    (displayTokens c).count "-b" = if c.borderless then 1 else 0 := by
  unfold displayTokens
  simp only [List.count_append]
  rw [count_cond_single _ "-f" _ (by decide), count_cond_single _ "-w" _ (by decide),
    count_cond_single _ "-t" _ (by decide), count_cond_single _ "-S" _ (by decide),
    count_cond_single _ "-T" _ (by decide), count_cond_single _ "-o" _ (by decide),
    count_cond_single _ "--no-audio" _ (by decide)]
  have hb : (if c.borderless = true then ["-b"] else []).count "-b"
      = if c.borderless then 1 else 0 := by
    split <;> simp [List.count_cons]
  rw [hb]
  split <;> rfl

theorem c10_custom (c : MirrorConfig) (hcust : "-b" ∉ pySplit c.custom_params) :
    (customTokens c).count "-b" = 0 := by
  unfold customTokens
  exact count_cond_list _ _ _ hcust

/-- Configuration with both the bitrate and borderless flags set and a
custom-argument string spelling a third copy of the shared token. -/
def cfgDashBInjected : MirrorConfig :=
  { baseConfig with
      bit_rate := true, bitrate_value := 8, borderless := true,
      custom_params := "-b" }

/-- Counterexample to C10 as stated: with the bitrate and borderless flags
both set, a custom-argument token equal to the shared flag token makes it
appear three times, not exactly twice. -/
theorem dash_b_collision_counterexample :
    cfgDashBInjected.bit_rate = true ∧ cfgDashBInjected.borderless = true
      ∧ get_scrcpy_command cfgDashBInjected
        = some ["scrcpy", "-b", "8M", "-b", "-b"]
      ∧ (["scrcpy", "-b", "8M", "-b", "-b"] : List String).count "-b" = 3 :=
  ⟨rfl, rfl, by decide, by decide⟩

/-- C10 amended: the bitrate flag and the borderless flag emit the same
token; provided the record filename is not that token and no
custom-argument token equals it, a configuration with both flags set
yields the token exactly twice, once immediately followed by the bitrate
value suffixed with M and once later on its own among the display flags. -/
theorem dash_b_collision (c : MirrorConfig)
    (hb : c.bit_rate = true) (hbl : c.borderless = true)
    (hrec : c.record_filename ≠ "-b")
    (hcust : "-b" ∉ pySplit c.custom_params)
    (l : List String) (hl : get_scrcpy_command c = some l) :
    l.count "-b" = 2
      ∧ ∃ pre mid post,
          l = pre ++ ["-b", Nat.repr c.bitrate_value ++ "M"] ++ mid ++ ["-b"] ++ post := by
  rw [get_eq_segments] at hl
  injection hl with hl
  subst hl
  constructor
  · simp only [List.count_append]
    rw [c10_scrcpy, c10_tcpip c, c10_codec c, c10_source c, c10_mouse c,
      c10_keyboard c, c10_noControl c, c10_maxSize c, c10_maxFps c,
      c10_bitrate c, c10_record c hrec, c10_screenTimeout c, c10_orientation c,
      c10_display c, c10_custom c hcust]
    rw [if_pos hb, if_pos hbl]
  · have hbt : bitrateTokens c = ["-b", Nat.repr c.bitrate_value ++ "M"] := by
      simp [bitrateTokens, hb]
    refine ⟨["scrcpy"] ++ tcpipTokens c ++ codecTokens c ++ sourceTokens c
        ++ mouseTokens c ++ keyboardTokens c ++ noControlTokens c
        ++ maxSizeTokens c ++ maxFpsTokens c,
      recordTokens c ++ screenTimeoutTokens c ++ orientationTokens c
        ++ (if c.fullscreen then ["-f"] else [])
        ++ (if c.stay_awake then ["-w"] else [])
        ++ (if c.show_touches then ["-t"] else [])
        ++ (if c.disable_screensaver then ["-S"] else []),
      (if c.always_on_top then ["-T"] else [])
        ++ (if c.turn_screen_off then ["-o"] else [])
        ++ (if c.no_audio then ["--no-audio"] else [])
        ++ customTokens c, ?_⟩
    rw [hbt]
    simp [displayTokens, hbl, List.append_assoc]

/-- Configuration with the bitrate flag at value 8 and the borderless flag
set, and nothing else. -/
def cfgDashBPlain : MirrorConfig :=
  { baseConfig with bit_rate := true, bitrate_value := 8, borderless := true }

/-- Witness for C10 amended at a configuration with both flags set and no
injected tokens. -/
theorem dash_b_collision_witness :
    cfgDashBPlain.bit_rate = true ∧ cfgDashBPlain.borderless = true
      ∧ cfgDashBPlain.record_filename ≠ "-b"
      ∧ "-b" ∉ pySplit cfgDashBPlain.custom_params
      ∧ get_scrcpy_command cfgDashBPlain = some ["scrcpy", "-b", "8M", "-b"]
      ∧ ((["scrcpy", "-b", "8M", "-b"] : List String).count "-b" = 2
          ∧ ∃ pre mid post, (["scrcpy", "-b", "8M", "-b"] : List String)
              = pre ++ ["-b", Nat.repr cfgDashBPlain.bitrate_value ++ "M"]
                ++ mid ++ ["-b"] ++ post) :=
  ⟨rfl, rfl, by decide, List.not_mem_nil "-b", by decide,
    dash_b_collision cfgDashBPlain rfl rfl (by decide) (List.not_mem_nil "-b")
      _ (by decide)⟩

end Scrcpty
